import Mathlib

/-!
Shallow embedding of the HippoEug/MDP onboard coordinator (src/task2.py),
covering the command sequencer (command_follower), the acknowledgement
listener (recv_stm), the ultrasonic debounce loop (set_us_flag), the
mode controller (change_mode), the action dispatcher (rpi_action) and the
navigation-sequencer fragments of fastest_car that the specification
describes (obstacle clearing scripts, gap measurement, distance chunking).
Python strings become Lean String, shared integer flags become Bool or Int
fields of explicit state records, queues become lists, and exceptions are
modelled with Option or with an explicit exception component so that the
try and except control flow of the source is visible in the definitions.
-/

namespace MDP

/-- Boolean prefix test on strings, mirroring Python str.startswith. -/
def strStartsWith (p s : String) : Bool := p.data.isPrefixOf s.data

/-- Android-bound message values: plain strings, or a location record
with x, y, d fields as built in recv_stm. -/
inductive AndroidValue where
  | str (s : String) : AndroidValue
  | loc (x y d : Int) : AndroidValue
deriving DecidableEq

/-- AndroidMessage from task2.py: a category and a value. -/
structure AndroidMessage where
  cat : String
  value : AndroidValue
deriving DecidableEq

/-- PiAction from task2.py: a category and a value. -/
structure PiAction where
  cat : String
  value : String
deriving DecidableEq

/-- The tuple stm32_prefixes from RaspberryPi.command_follower. -/
def stm32_prefixes : List String :=
  ["FS", "BS", "FW", "BW", "FL", "FR", "BL", "BR", "TL", "TR",
   "IR", "A", "C", "DT", "STOP", "ZZ"]

/-- Test command.startswith(stm32_prefixes) from command_follower. -/
def isStm32Command (command : String) : Bool :=
  stm32_prefixes.any (fun p => strStartsWith p command)

/-- Removal of every occurrence of the pattern SNAP from a character list,
mirroring the Python expression command.replace with pattern SNAP and an
empty replacement (left to right, no rescan of the replaced region). -/
def removeSnap : List Char → List Char
  | [] => []
  | 'S' :: 'N' :: 'A' :: 'P' :: rest => removeSnap rest
  | c :: rest => c :: removeSnap rest

/-- The obstacle_id computed in the SNAP branch of command_follower. -/
def snapless (command : String) : String := ⟨removeSnap command.data⟩

/-- Observable effect of one dispatch of the command sequencer on a single
dequeued command: messages sent to the STM32, messages queued for Android,
PiActions queued, whether the movement lock is released, whether the
unpause event is cleared, and whether the branch raises an exception. -/
structure DispatchEffect where
  stmSends : List String
  androidMsgs : List AndroidMessage
  actions : List PiAction
  releasesLock : Bool
  clearsUnpause : Bool
  raises : Bool
deriving DecidableEq

/-- Branch dispatch of RaspberryPi.command_follower on one dequeued
command, translated branch for branch from task2.py lines 344 to 382. -/
def command_follower_dispatch (command : String) : DispatchEffect :=
  if isStm32Command command then
    { stmSends := [command], androidMsgs := [], actions := [],
      releasesLock := false, clearsUnpause := false, raises := false }
  else if strStartsWith "WN" command then
    { stmSends := [],
      androidMsgs := [⟨"status", .str "running"⟩,
                      ⟨"info", .str "Starting robot on fastest car!"⟩],
      actions := [], releasesLock := false, clearsUnpause := false,
      raises := false }
  else if strStartsWith "SNAP" command then
    { stmSends := [], androidMsgs := [],
      actions := [⟨"snap", snapless command⟩],
      releasesLock := false, clearsUnpause := false, raises := false }
  else if strStartsWith "MANSNAP" command then
    { stmSends := [], androidMsgs := [], actions := [⟨"snap", "99"⟩],
      releasesLock := false, clearsUnpause := false, raises := false }
  else if strStartsWith "NOOP" command then
    { stmSends := [], androidMsgs := [], actions := [],
      releasesLock := true, clearsUnpause := false, raises := false }
  else if command = "FIN" then
    { stmSends := ["ZZ01"],
      androidMsgs := [⟨"info", .str "Commands queue finished."⟩,
                      ⟨"status", .str "finished"⟩],
      actions := [⟨"stitch", ""⟩],
      releasesLock := true, clearsUnpause := true, raises := false }
  else
    { stmSends := [], androidMsgs := [], actions := [],
      releasesLock := false, clearsUnpause := false, raises := true }

/-- The closed command vocabulary of the sequencer: an STM32 prefix, WN,
SNAP, MANSNAP, NOOP, or the exact end-of-path marker FIN. -/
def inVocabulary (command : String) : Bool :=
  isStm32Command command || strStartsWith "WN" command ||
  strStartsWith "SNAP" command || strStartsWith "MANSNAP" command ||
  strStartsWith "NOOP" command || command == "FIN"

/-- Program counter of the command_follower task: waiting at the blocking
dequeue, holding a dequeued command before the lock acquire, holding the
lock about to dispatch, or terminated by the raise in the unknown-command
branch. -/
inductive FollowerPC where
  | idle : FollowerPC
  | got (command : String) : FollowerPC
  | locked (command : String) : FollowerPC
  | crashed (command : String) : FollowerPC
deriving DecidableEq

/-- Interleaved state of the producer, command_follower and recv_stm tasks
around the command queue and the movement lock. The fields enqueued,
processed and sentMoves are history variables: all commands ever put on the
queue, all commands fully dispatched, and all movement commands transmitted
to the STM32 in transmission order. inFlight counts movement commands
transmitted but not yet acknowledged. -/
structure SysState where
  command_queue : List String
  pc : FollowerPC
  lockHeld : Bool
  unpause : Bool
  inFlight : Nat
  enqueued : List String
  processed : List String
  sentMoves : List String
deriving DecidableEq

/-- Scheduler events: a producer enqueue, the three sequential steps of the
command_follower loop body (dequeue, lock acquire, branch dispatch), and an
acknowledgement consumed by recv_stm. -/
inductive SysEvent where
  | enqueue (command : String)
  | dequeue
  | acquire
  | dispatch
  | ack
deriving DecidableEq

/-- One interleaving step. The dequeue does not consult the unpause event,
because the unpause wait in command_follower is commented out in task2.py.
An ack event is only enabled while a movement command is outstanding: the
STM32 acknowledges exactly the commands it was sent. On an ack recv_stm
releases the movement lock. A raising dispatch terminates the follower and
leaves the lock held, as the uncaught exception kills the Python process
without releasing it. -/
def stepSys (s : SysState) (e : SysEvent) : Option SysState :=
  match e with
  | .enqueue c =>
      some { s with command_queue := s.command_queue ++ [c],
                    enqueued := s.enqueued ++ [c] }
  | .dequeue =>
      match s.pc, s.command_queue with
      | .idle, c :: rest => some { s with command_queue := rest, pc := .got c }
      | _, _ => none
  | .acquire =>
      match s.pc with
      | .got c => if s.lockHeld then none
                  else some { s with lockHeld := true, pc := .locked c }
      | _ => none
  | .dispatch =>
      match s.pc with
      | .locked c =>
          let eff := command_follower_dispatch c
          if eff.raises then some { s with pc := .crashed c }
          else some
            { s with
              pc := .idle,
              processed := s.processed ++ [c],
              sentMoves := s.sentMoves ++
                (if isStm32Command c then [c] else []),
              inFlight := s.inFlight + (if isStm32Command c then 1 else 0),
              lockHeld := if eff.releasesLock then false else s.lockHeld,
              unpause := if eff.clearsUnpause then false else s.unpause }
      | _ => none
  | .ack =>
      if s.inFlight = 0 then none
      else some { s with lockHeld := false, inFlight := s.inFlight - 1 }

/-- Initial state: empty queues, lock free, unpause event unset. -/
def initSys : SysState := ⟨[], .idle, false, false, 0, [], [], []⟩

/-- Run a list of events from a state, failing if any event is not
enabled. -/
def runSys : SysState → List SysEvent → Option SysState
  | s, [] => some s
  | s, e :: es =>
      match stepSys s e with
      | some s' => runSys s' es
      | none => none

/-- The command held by the follower between its dequeue and the end of its
dispatch, as a list. -/
def pcPending : FollowerPC → List String
  | .idle => []
  | .got c => [c]
  | .locked c => [c]
  | .crashed c => [c]

/-- Inductive invariant of the sequencer protocol: at most one movement
command is in flight; while the follower holds the lock ready to dispatch,
nothing is in flight and the lock is held; the lock is held whenever a
command is in flight; the enqueue history splits into processed commands,
the command being processed, and the queue; and the transmission history is
exactly the movement-command part of the processed history. -/
def SysInv (s : SysState) : Prop :=
  s.inFlight ≤ 1 ∧
  (∀ c, s.pc = .locked c → s.inFlight = 0 ∧ s.lockHeld = true) ∧
  (s.inFlight = 1 → s.lockHeld = true) ∧
  s.enqueued = s.processed ++ pcPending s.pc ++ s.command_queue ∧
  s.sentMoves = s.processed.filter (fun c => isStm32Command c)

theorem initSys_inv : SysInv initSys := by
  refine ⟨?_, ?_, ?_, ?_, ?_⟩ <;> simp [initSys, SysInv, pcPending]

theorem stepSys_inv {s s' : SysState} {e : SysEvent}
    (hinv : SysInv s) (hstep : stepSys s e = some s') : SysInv s' := by
  obtain ⟨h1, h2, h3, h4, h5⟩ := hinv
  cases e with
  | enqueue c =>
      simp only [stepSys, Option.some.injEq] at hstep
      subst hstep
      refine ⟨h1, fun c' hc' => h2 c' hc', h3, ?_, h5⟩
      rw [h4]
      simp [List.append_assoc]
  | dequeue =>
      rcases hpc : s.pc with _ | c | c | c <;>
        rcases hq : s.command_queue with _ | ⟨c0, rest⟩ <;>
        simp only [stepSys, hpc, hq, Option.some.injEq] at hstep <;>
        try exact Option.noConfusion hstep
      subst hstep
      refine ⟨h1, by simp, h3, ?_, h5⟩
      rw [h4, hpc, hq]
      simp [pcPending]
  | acquire =>
      rcases hpc : s.pc with _ | c | c | c <;>
        simp only [stepSys, hpc] at hstep <;>
        try exact Option.noConfusion hstep
      rcases hlock : s.lockHeld with _ | _ <;>
        rw [hlock] at hstep <;> simp only [Bool.false_eq_true, if_false,
          if_true, Option.some.injEq] at hstep <;>
        try exact Option.noConfusion hstep
      subst hstep
      have hflight : s.inFlight = 0 := by
        by_cases hf1 : s.inFlight = 1
        · rw [h3 hf1] at hlock
          exact Bool.noConfusion hlock
        · omega
      refine ⟨by simp [hflight], ?_, by simp, ?_, h5⟩
      · intro c' hc'
        exact ⟨hflight, rfl⟩
      · rw [h4, hpc]
        simp [pcPending]
  | dispatch =>
      rcases hpc : s.pc with _ | c | c | c <;>
        simp only [stepSys, hpc] at hstep <;>
        try exact Option.noConfusion hstep
      obtain ⟨hflight, hlock⟩ := h2 c hpc
      rcases hr : (command_follower_dispatch c).raises with _ | _ <;>
        rw [hr] at hstep <;> simp only [Bool.false_eq_true, if_false,
          if_true, Option.some.injEq] at hstep
      · -- dispatch completes without raising
        subst hstep
        refine ⟨?_, by simp, ?_, ?_, ?_⟩
        · rcases hstm : isStm32Command c with _ | _ <;> simp [hstm, hflight]
        · intro hf
          rcases hstm : isStm32Command c with _ | _
          · rw [hstm] at hf
            simp [hflight] at hf
          · have hrel : (command_follower_dispatch c).releasesLock = false := by
              simp [command_follower_dispatch, hstm]
            simp [hrel, hlock]
        · rw [h4, hpc]
          simp [pcPending]
        · rcases hstm : isStm32Command c with _ | _ <;>
            simp [h5, List.filter_append, hstm]
      · -- the unknown-command branch raises and the follower crashes
        subst hstep
        refine ⟨h1, by simp, h3, ?_, h5⟩
        rw [h4, hpc]
        simp [pcPending]
  | ack =>
      rcases hflight : s.inFlight with _ | n
      · rw [stepSys, hflight] at hstep
        exact Option.noConfusion hstep
      · rw [stepSys, hflight] at hstep
        simp only [Nat.succ_ne_zero, if_false, Option.some.injEq] at hstep
        subst hstep
        rw [hflight] at h1
        refine ⟨?_, ?_, ?_, h4, h5⟩
        · show n + 1 - 1 ≤ 1
          omega
        · intro c' hc'
          obtain ⟨hf0, _⟩ := h2 c' hc'
          rw [hflight] at hf0
          exact absurd hf0 (Nat.succ_ne_zero n)
        · intro hf
          have hf' : n + 1 - 1 = 1 := hf
          exfalso
          omega

theorem runSys_inv {s s' : SysState} {es : List SysEvent}
    (hinv : SysInv s) (hrun : runSys s es = some s') : SysInv s' := by
  induction es generalizing s with
  | nil => simp only [runSys, Option.some.injEq] at hrun; subst hrun; exact hinv
  | cons e es ih =>
      simp only [runSys] at hrun
      rcases hstep : stepSys s e with _ | s1
      · rw [hstep] at hrun
        exact Option.noConfusion hrun
      · rw [hstep] at hrun
        exact ih (stepSys_inv hinv hstep) hrun

/-- C1: in every reachable state of the sequencer and acknowledgement
protocol, at most one movement command is in flight; the movement lock is
held whenever a command is in flight; the follower only reaches its send
point, holding the lock, while nothing is in flight (so no second command
is sent before the ACK for the previous one); and the transmitted movement
commands are exactly the movement commands among a prefix of the enqueue
history, in enqueue order (strict FIFO). -/
theorem claim_C1_single_inflight_fifo (es : List SysEvent) (s : SysState)
    (hrun : runSys initSys es = some s) :
    s.inFlight ≤ 1 ∧
    (s.inFlight = 1 → s.lockHeld = true) ∧
    (∀ c, s.pc = .locked c → s.inFlight = 0) ∧
    (∃ n, s.sentMoves =
      (s.enqueued.take n).filter (fun c => isStm32Command c)) := by
  obtain ⟨h1, h2, h3, h4, h5⟩ := runSys_inv initSys_inv hrun
  refine ⟨h1, h3, fun c hc => (h2 c hc).1, ⟨s.processed.length, ?_⟩⟩
  rw [h4, List.append_assoc, List.take_left]
  exact h5

/-- Concrete trace for the C1 witness: enqueue FW10 and STOP, then the
follower dequeues, acquires the lock and transmits FW10, and the ACK
arrives. -/
def c1WitnessTrace : List SysEvent :=
  [.enqueue "FW10", .enqueue "STOP", .dequeue, .acquire, .dispatch, .ack]

/-- State reached by c1WitnessTrace. -/
def c1WitnessState : SysState :=
  ⟨["STOP"], .idle, false, false, 0, ["FW10", "STOP"], ["FW10"], ["FW10"]⟩

/-- Witness for C1 at the concrete trace c1WitnessTrace. -/
theorem claim_C1_witness :
    c1WitnessState.inFlight ≤ 1 ∧
    (c1WitnessState.inFlight = 1 → c1WitnessState.lockHeld = true) ∧
    (∀ c, c1WitnessState.pc = .locked c → c1WitnessState.inFlight = 0) ∧
    (∃ n, c1WitnessState.sentMoves =
      (c1WitnessState.enqueued.take n).filter (fun c => isStm32Command c)) :=
  claim_C1_single_inflight_fifo c1WitnessTrace c1WitnessState (by decide)

/-- C5 counterexample: after the follower dispatches FIN (which clears the
unpause event), a further dequeue still succeeds and retrieves the next
command FW10, because the unpause wait in command_follower is commented out
in task2.py; so clearing the gate does not disable further dequeues. -/
theorem claim_C5_counterexample :
    runSys initSys [.enqueue "FIN", .enqueue "FW10", .dequeue, .acquire,
      .dispatch, .dequeue] =
      some ⟨[], .got "FW10", false, false, 0, ["FIN", "FW10"], ["FIN"], []⟩ := by
  decide

/-- C5 amended: dispatching FIN sends the terminal diagnostic ZZ01, clears
the unpause event, releases the movement lock, and emits a stitch-request
action (plus the two Android notifications); however the dequeue step never
consults the unpause event, so a queued command is still retrieved
afterwards. -/
theorem claim_C5_fin_effects :
    command_follower_dispatch "FIN" =
      ⟨["ZZ01"],
       [⟨"info", .str "Commands queue finished."⟩,
        ⟨"status", .str "finished"⟩],
       [⟨"stitch", ""⟩], true, true, false⟩ ∧
    (∀ s c rest, s.pc = .idle → s.command_queue = c :: rest →
      stepSys s .dequeue =
        some { s with command_queue := rest, pc := .got c }) := by
  constructor
  · decide
  · intro s c rest hpc hq
    simp [stepSys, hpc, hq]

/-- Witness for the amended C5: a dequeue succeeds in a concrete state with
the unpause event cleared. -/
theorem claim_C5_witness :
    stepSys ⟨["FW10"], .idle, false, false, 0, ["FIN", "FW10"], ["FIN"], []⟩
        .dequeue =
      some ⟨[], .got "FW10", false, false, 0, ["FIN", "FW10"], ["FIN"], []⟩ :=
  claim_C5_fin_effects.2 _ "FW10" [] rfl rfl

/-- C6: the raising branch of the sequencer is taken exactly on commands
outside the closed vocabulary; such a dispatch forwards nothing, queues
nothing, releases nothing and raises; and once the follower has crashed no
follower step (dequeue, acquire, dispatch) is enabled again, so the task
terminates fail-fast. -/
theorem claim_C6_unknown_command_fail_fast :
    (∀ command, (command_follower_dispatch command).raises = true ↔
      inVocabulary command = false) ∧
    (∀ command, inVocabulary command = false →
      command_follower_dispatch command =
        ⟨[], [], [], false, false, true⟩) ∧
    (∀ s command, s.pc = .crashed command →
      stepSys s .dequeue = none ∧ stepSys s .acquire = none ∧
      stepSys s .dispatch = none) := by
  refine ⟨?_, ?_, ?_⟩
  · intro command
    simp only [command_follower_dispatch, inVocabulary]
    split_ifs with hA hB hC hD hE hF <;>
      simp_all [Bool.or_eq_false_iff, beq_iff_eq]
  · intro command h
    simp only [inVocabulary, Bool.or_eq_false_iff, beq_eq_false_iff_ne] at h
    obtain ⟨⟨⟨⟨⟨h1, h2⟩, h3⟩, h4⟩, h5⟩, h6⟩ := h
    simp [command_follower_dispatch, h1, h2, h3, h4, h5, h6]
  · intro s command h
    refine ⟨?_, ?_, ?_⟩ <;>
      cases hq : s.command_queue <;> simp [stepSys, h, hq]

/-- Witness for C6 at the concrete command XYZ01 and a crashed state. -/
theorem claim_C6_witness :
    ((command_follower_dispatch "XYZ01").raises = true ↔
      inVocabulary "XYZ01" = false) ∧
    command_follower_dispatch "XYZ01" = ⟨[], [], [], false, false, true⟩ ∧
    (stepSys ⟨[], .crashed "XYZ01", true, false, 0, [], [], []⟩ .dequeue = none ∧
     stepSys ⟨[], .crashed "XYZ01", true, false, 0, [], [], []⟩ .acquire = none ∧
     stepSys ⟨[], .crashed "XYZ01", true, false, 0, [], [], []⟩ .dispatch = none) :=
  ⟨claim_C6_unknown_command_fail_fast.1 "XYZ01",
   claim_C6_unknown_command_fail_fast.2.1 "XYZ01" (by decide),
   claim_C6_unknown_command_fail_fast.2.2 _ "XYZ01" rfl⟩

/-- State of the set_us_flag polling loop: the consecutive-low counter
obstacle_count_short and the shared flag ultrasonic_is_clear (true for the
source value 1, false for 0). -/
structure USState where
  obstacle_count_short : Nat
  ultrasonic_is_clear : Bool
deriving DecidableEq

/-- One iteration of RaspberryPi.set_us_flag on a distance sample, from
task2.py lines 412 to 419: a sample at or below 28.0 increments the
counter, any other sample resets the counter and sets the flag clear, and
the flag flips to blocked exactly when the counter reaches 2. -/
def set_us_flag_step (dist : ℚ) (s : USState) : USState :=
  if dist ≤ 28 then
    let c := s.obstacle_count_short + 1
    if c = 2 then ⟨c, false⟩ else ⟨c, s.ultrasonic_is_clear⟩
  else
    ⟨0, true⟩

/-- Loop state at startup: counter 0, flag clear (shared value 1). -/
def usInit : USState := ⟨0, true⟩

/-- Folding set_us_flag_step over a list of 100 ms distance samples. -/
def set_us_flag_run (s : USState) (dists : List ℚ) : USState :=
  dists.foldl (fun st d => set_us_flag_step d st) s

/-- Number of trailing samples at or below the threshold, counted from the
end of the sample list. -/
def countLowRev : List ℚ → Nat
  | [] => 0
  | d :: rest => if d ≤ 28 then countLowRev rest + 1 else 0

/-- Trailing at-or-below-threshold run length of a sample list. -/
def trailingLow (l : List ℚ) : Nat := countLowRev l.reverse

theorem set_us_flag_run_append (s : USState) (l : List ℚ) (d : ℚ) :
    set_us_flag_run s (l ++ [d]) = set_us_flag_step d (set_us_flag_run s l) := by
  simp [set_us_flag_run, List.foldl_append]

theorem trailingLow_append (l : List ℚ) (d : ℚ) :
    trailingLow (l ++ [d]) =
      if d ≤ 28 then trailingLow l + 1 else 0 := by
  simp [trailingLow, countLowRev]

/-- Characterisation of the debounce loop: after any sample list the
counter equals the trailing at-or-below-threshold run length, and the flag
is clear exactly while that run length is below 2. -/
theorem set_us_flag_run_spec (l : List ℚ) :
    (set_us_flag_run usInit l).obstacle_count_short = trailingLow l ∧
    (set_us_flag_run usInit l).ultrasonic_is_clear = decide (trailingLow l < 2) := by
  induction l using List.reverseRecOn with
  | nil => simp [set_us_flag_run, usInit, trailingLow, countLowRev]
  | append_singleton l d ih =>
      obtain ⟨hc, hf⟩ := ih
      rw [set_us_flag_run_append, trailingLow_append]
      by_cases hd : d ≤ 28
      · rw [if_pos hd]
        simp only [set_us_flag_step, if_pos hd, hc]
        by_cases h2 : trailingLow l + 1 = 2
        · rw [if_pos h2]
          constructor
          · rfl
          · simp only [h2]
            decide
        · rw [if_neg h2]
          refine ⟨rfl, ?_⟩
          rw [hf]
          have : (trailingLow l < 2) ↔ (trailingLow l + 1 < 2) := by omega
          simp [this]
      · rw [if_neg hd]
        simp [set_us_flag_step, hd]

/-- C2 counterexample: two consecutive samples exactly at the threshold
28.0 drive the flag to blocked, although neither sample is strictly below
the threshold; the specification assigns a sample at the threshold to the
clear side, so the claim fails at this input. -/
theorem claim_C2_counterexample :
    (set_us_flag_run usInit [(28 : ℚ), 28]).ultrasonic_is_clear = false ∧
    ¬((28 : ℚ) < 28) := by
  constructor
  · rfl
  · exact lt_irrefl 28

/-- C2 amended: the flag flips back to clear on any single sample strictly
above 28.0; starting from the initial state, the flag is blocked after a
sample sequence exactly when the last two samples are both at or below
28.0; and fewer than two samples never block. -/
theorem claim_C2_hysteresis :
    (∀ s d, 28 < d → (set_us_flag_step d s).ultrasonic_is_clear = true) ∧
    (∀ l a b, (set_us_flag_run usInit (l ++ [a, b])).ultrasonic_is_clear = false ↔
      (a ≤ 28 ∧ b ≤ 28)) ∧
    (∀ l, l.length ≤ 1 → (set_us_flag_run usInit l).ultrasonic_is_clear = true) := by
  refine ⟨?_, ?_, ?_⟩
  · intro s d hd
    simp [set_us_flag_step, not_le.mpr hd]
  · intro l a b
    have h := (set_us_flag_run_spec (l ++ [a, b])).2
    have hl : l ++ [a, b] = (l ++ [a]) ++ [b] := by simp
    rw [hl, trailingLow_append, trailingLow_append] at h
    rw [show l ++ [a, b] = (l ++ [a]) ++ [b] from by simp, h]
    by_cases hb : b ≤ 28
    · by_cases ha : a ≤ 28 <;> simp [ha, hb]
    · simp [hb]
  · intro l hl
    match l, hl with
    | [], _ => rfl
    | [d], _ =>
        have h := (set_us_flag_run_spec [d]).2
        rw [show [d] = [] ++ [d] from rfl, trailingLow_append] at h
        rw [show [d] = [] ++ [d] from rfl, h]
        by_cases hd : d ≤ 28 <;> simp [hd, trailingLow, countLowRev]

/-- Witness for the amended C2 at concrete samples: 30 clears in one step,
the pair 10, 5 at the end blocks, and a single sample never blocks. -/
theorem claim_C2_witness :
    (set_us_flag_step 30 usInit).ultrasonic_is_clear = true ∧
    ((set_us_flag_run usInit ([(40 : ℚ)] ++ [10, 5])).ultrasonic_is_clear = false ↔
      ((10 : ℚ) ≤ 28 ∧ (5 : ℚ) ≤ 28)) ∧
    (set_us_flag_run usInit [(12 : ℚ)]).ultrasonic_is_clear = true :=
  ⟨claim_C2_hysteresis.1 usInit 30 (by norm_num),
   claim_C2_hysteresis.2.1 [40] 10 5,
   claim_C2_hysteresis.2.2 [12] (by norm_num)⟩

/-- Hardcoded obstacle-1 clearing scripts of RaspberryPi.clear_first_obstacle
(task2.py lines 614 to 637): the function clears the queues and enqueues
the returned four-command script selected by the classification result. -/
def clear_first_obstacle (first_arrow_dir : String) : List String :=
  if first_arrow_dir = "38" then
    ["FR30", "FL30", "FL30", "FR30"]
  else if first_arrow_dir = "39" then
    ["FL30", "FR30", "FR30", "FL30"]
  else
    ["FR30", "FL30", "FL30", "FR30"]

/-- C3: the obstacle-1 clearing script is FR30, FL30, FL30, FR30 for the
image id 38, the mirrored FL30, FR30, FR30, FL30 for 39, and every other
classification value selects the same script as 38. -/
theorem claim_C3_first_obstacle_scripts :
    clear_first_obstacle "38" = ["FR30", "FL30", "FL30", "FR30"] ∧
    clear_first_obstacle "39" = ["FL30", "FR30", "FR30", "FL30"] ∧
    (∀ d, d ≠ "38" → d ≠ "39" →
      clear_first_obstacle d = clear_first_obstacle "38") := by
  refine ⟨rfl, rfl, ?_⟩
  intro d h38 h39
  simp [clear_first_obstacle, h38, h39]

/-- Witness for C3 at the concrete garbled value bullseye. -/
theorem claim_C3_witness :
    clear_first_obstacle "bullseye" = clear_first_obstacle "38" :=
  claim_C3_first_obstacle_scripts.2.2 "bullseye" (by decide) (by decide)

/-- Gap-measurement block of RaspberryPi.fastest_car (task2.py lines 1241
to 1250) on the five truncated distance readings observed at the 0.5 s
sampling points: readings below 150 are collected into max_list, and the
stored gap is the maximum of that list plus 70. The Python source guards
the maximum with the test comparing it against None, but max on an empty
sequence raises ValueError instead of returning None, so the 100 default of
the else branch is unreachable; the raised exception is modelled by none. -/
def fastest_car_measure_gap (readings : List Int) : Option Int :=
  let max_list := readings.filter (fun r => r < 150)
  match max_list.max? with
  | some m => some (m + 70)
  | none => none

/-- C4: on the Scenario D readings the qualifying set is 10, 30, 40 and the
stored gap is 40 + 70 = 110; but when all five readings are at or above 150
the measurement evaluates max on an empty list, which raises instead of
falling back to the fixed default the specification promises. -/
theorem claim_C4_gap_measurement :
    fastest_car_measure_gap [10, 160, 30, 200, 40] = some 110 ∧
    fastest_car_measure_gap [160, 160, 200, 151, 150] = none := by
  decide

/-- Chunking used by RaspberryPi.return_home (task2.py lines 985 to 1001)
and by all branches of clear_second_obstacle_p2 (lines 775 to 791) to
reissue a stored distance as forward commands: the magnitudes of the
emitted FW commands. -/
def split_fw (d : Int) : List Int :=
  if d ≤ 99 then [d]
  else
    let remaining_xdist := d - 99
    if remaining_xdist < 99 then [99, remaining_xdist]
    else [99, 99, remaining_xdist - 99]

/-- Lateral distance accumulated by the loop of
RaspberryPi.move_past_obstacle_irl (task2.py lines 493 to 516) over the
sampled left-proximity flag values: one FW10 and 10 units when the flag is
initially blocked, 10 units per blocked loop sample until the first clear
sample, and a final unconditional FW10 of 10 units. -/
def irLoopGain : List Bool → Int
  | [] => 0
  | isClear :: rest => if isClear then 0 else 10 + irLoopGain rest

/-- Total x-distance contribution of one move_past_obstacle_irl call. -/
def move_past_obstacle_irl_xdist (initClear : Bool) (loopSamples : List Bool) : Int :=
  (if initClear then 0 else 10) + irLoopGain loopSamples + 10

/-- Perpendicular-axis crossing distance computed by
RaspberryPi.clear_second_obstacle_p2 (task2.py lines 770 to 772): twice the
accumulated lateral distance plus 30, plus 20 more when the accumulated
distance is at most 20. -/
def clear_second_obstacle_p2_xdist (total_xdist : Int) : Int :=
  let doubled_xdist := total_xdist * 2 + 30
  if total_xdist ≤ 20 then doubled_xdist + 20 else doubled_xdist

/-- C8 counterexample: a run in which the left-proximity flag stays blocked
for twelve loop samples accumulates a lateral distance of 140, so the
crossing distance is 310; its chunking emits the magnitude 112, which
exceeds the 99-unit cap, although the chunk magnitudes still sum to the
stored distance. -/
theorem claim_C8_counterexample :
    move_past_obstacle_irl_xdist false (List.replicate 12 false ++ [true]) = 140 ∧
    clear_second_obstacle_p2_xdist 140 = 310 ∧
    split_fw 310 = [99, 99, 112] ∧
    ¬((112 : Int) ≤ 99) ∧
    (split_fw 310).sum = 310 := by
  decide

/-- C8 amended: the chunk magnitudes always sum to the stored distance;
every magnitude is at most 99 whenever the stored distance is at most 297;
and the stored return-home gap distance always qualifies, because the gap
measurement yields at most 149 + 70 = 219. The crossing distance can
exceed 297 when the accumulated lateral distance exceeds 133, and then the
final chunk magnitude exceeds 99. -/
theorem claim_C8_chunking :
    (∀ d : Int, (split_fw d).sum = d) ∧
    (∀ d : Int, d ≤ 297 → ∀ m ∈ split_fw d, m ≤ 99) ∧
    (∀ readings g, fastest_car_measure_gap readings = some g → g ≤ 219) := by
  refine ⟨?_, ?_, ?_⟩
  · intro d
    simp only [split_fw]
    split_ifs <;> simp
  · intro d hd m hm
    simp only [split_fw] at hm
    split_ifs at hm with h1 h2 <;> simp at hm <;> omega
  · intro readings g h
    simp only [fastest_car_measure_gap] at h
    rcases hmax : (readings.filter (fun r => r < 150)).max? with _ | m
    · rw [hmax] at h
      exact Option.noConfusion h
    · rw [hmax] at h
      have hg : g = m + 70 := by
        simpa using h.symm
      have hmem : m ∈ readings.filter (fun r => r < 150) :=
        List.max?_mem max_choice hmax
      have hlt : m < 150 := by
        have := (List.mem_filter.mp hmem).2
        simpa using this
      omega

/-- Witness for the amended C8 at the concrete distance 219 and the
Scenario D readings. -/
theorem claim_C8_witness :
    (split_fw 219).sum = 219 ∧
    (∀ m ∈ split_fw 219, m ≤ 99) ∧
    (110 : Int) ≤ 219 :=
  ⟨claim_C8_chunking.1 219,
   claim_C8_chunking.2.1 219 (by norm_num),
   claim_C8_chunking.2.2 [10, 160, 30, 200, 40] 110 (by decide)⟩

/-- Observable effect of one iteration of RaspberryPi.rpi_action on a
dequeued PiAction (task2.py lines 1295 to 1305): a mode change request, a
load of the hardcoded single-obstacle navigation path, or a stitch
request. The dispatcher has no branch for any other category, so any other
action is consumed with none of these effects. -/
structure RpiActionEffect where
  modeChange : Option String
  loadsNavigatePath : Bool
  requestsStitch : Bool
deriving DecidableEq

/-- Branch dispatch of RaspberryPi.rpi_action on one dequeued action. -/
def rpi_action_step (action : PiAction) : RpiActionEffect :=
  if action.cat = "mode" then ⟨some action.value, false, false⟩
  else if action.cat = "single-obstacle" then ⟨none, true, false⟩
  else if action.cat = "stitch" then ⟨none, false, true⟩
  else ⟨none, false, false⟩

/-- C9: every SNAP or MANSNAP command is translated by the sequencer into a
PiAction of category snap (sending nothing to the STM32 and keeping the
lock), and the action dispatcher consumes a snap action with no effect: no
mode change, no path load, no stitch request. -/
theorem claim_C9_snap_discarded :
    (∀ v, rpi_action_step ⟨"snap", v⟩ = ⟨none, false, false⟩) ∧
    (∀ suffix, command_follower_dispatch ("SNAP" ++ suffix) =
      ⟨[], [], [⟨"snap", snapless ("SNAP" ++ suffix)⟩], false, false, false⟩) ∧
    (∀ suffix, command_follower_dispatch ("MANSNAP" ++ suffix) =
      ⟨[], [], [⟨"snap", "99"⟩], false, false, false⟩) := by
  refine ⟨?_, ?_, ?_⟩
  · intro v
    rfl
  · intro suffix
    have hdata : ("SNAP" ++ suffix).data =
        'S' :: 'N' :: 'A' :: 'P' :: suffix.data := by
      cases suffix
      rfl
    have hstm : isStm32Command ("SNAP" ++ suffix) = false := by
      simp [isStm32Command, stm32_prefixes, strStartsWith, hdata,
        List.isPrefixOf]
    have hwn : strStartsWith "WN" ("SNAP" ++ suffix) = false := by
      simp [strStartsWith, hdata, List.isPrefixOf]
    have hsnap : strStartsWith "SNAP" ("SNAP" ++ suffix) = true := by
      simp [strStartsWith, hdata, List.isPrefixOf]
    simp [command_follower_dispatch, hstm, hwn, hsnap]
  · intro suffix
    have hdata : ("MANSNAP" ++ suffix).data =
        'M' :: 'A' :: 'N' :: 'S' :: 'N' :: 'A' :: 'P' :: suffix.data := by
      cases suffix
      rfl
    have hstm : isStm32Command ("MANSNAP" ++ suffix) = false := by
      simp [isStm32Command, stm32_prefixes, strStartsWith, hdata,
        List.isPrefixOf]
    have hwn : strStartsWith "WN" ("MANSNAP" ++ suffix) = false := by
      simp [strStartsWith, hdata, List.isPrefixOf]
    have hsnap : strStartsWith "SNAP" ("MANSNAP" ++ suffix) = false := by
      simp [strStartsWith, hdata, List.isPrefixOf]
    have hman : strStartsWith "MANSNAP" ("MANSNAP" ++ suffix) = true := by
      simp [strStartsWith, hdata, List.isPrefixOf]
    simp [command_follower_dispatch, hstm, hwn, hsnap, hman]

/-- Exceptions raised inside the modelled fragments: releasing a released
multiprocessing lock raises ValueError, and Queue.get_nowait on an empty
queue raises queue.Empty. Both are subclasses of Exception and are caught
by the bare except Exception handlers of the source. -/
inductive PyExn where
  | lockReleaseError : PyExn
  | queueEmpty : PyExn
deriving DecidableEq

/-- Releasing the movement lock: succeeds when the lock is held, raises
when it is not. The lock is unheld afterwards in both cases. -/
def movement_lock_release (lockHeld : Bool) : Bool × Option PyExn :=
  if lockHeld then (false, none) else (false, some .lockReleaseError)

/-- PlannedWaypoint dictionary put on path_queue: fields x, y, d, s. -/
structure Waypoint where
  x : Int
  y : Int
  d : Int
  s : Int
deriving DecidableEq

/-- Shared state visible to one iteration of RaspberryPi.recv_stm:
the mode flag, the movement lock, the waypoint queue, the outgoing Android
queue, and the warnings logged so far. -/
structure RecvState where
  robot_mode : Int
  lockHeld : Bool
  path_queue : List Waypoint
  androidMsgs : List AndroidMessage
  warnings : List String
deriving DecidableEq

/-- Warning text logged by every except handler around a movement lock
release in task2.py. -/
def lockWarning : String := "Tried to release a released lock!"

/-- Body of the try block of RaspberryPi.recv_stm (task2.py lines 292 to
309) for an acknowledgement message: release the movement lock, then in
path mode pop the next waypoint and queue a location message, otherwise
queue the completion messages when the acknowledgement is the fastest-car
terminal marker. Mutations performed before a raise persist, and the
raised exception is returned alongside the state. -/
def recv_stm_try (message : String) (s : RecvState) : RecvState × Option PyExn :=
  match movement_lock_release s.lockHeld with
  | (lockAfter, some e) => ({ s with lockHeld := lockAfter }, some e)
  | (lockAfter, none) =>
      let s1 := { s with lockHeld := lockAfter }
      if s1.robot_mode = 1 then
        match s1.path_queue with
        | [] => (s1, some .queueEmpty)
        | w :: rest =>
            ({ s1 with path_queue := rest,
                       androidMsgs := s1.androidMsgs ++
                         [⟨"location", .loc w.x w.y w.d⟩] }, none)
      else
        if message = "ACK|X" then
          ({ s1 with androidMsgs := s1.androidMsgs ++
              [⟨"info", .str "Robot has completed fastest car!"⟩,
               ⟨"status", .str "finished"⟩] }, none)
        else (s1, none)

/-- One iteration of RaspberryPi.recv_stm on a received message: messages
with the ACK prefix run the try body, and any exception it raises is
swallowed by the except Exception handler, which logs the lock warning;
other messages are logged as ignored. -/
def recv_stm_step (message : String) (s : RecvState) : RecvState :=
  if strStartsWith "ACK" message then
    match recv_stm_try message s with
    | (s1, some _) => { s1 with warnings := s1.warnings ++ [lockWarning] }
    | (s1, none) => s1
  else
    { s with warnings := s.warnings ++ ["Ignored unknown message from STM"] }

/-- State visible to RaspberryPi.change_mode: the mode flag, both drainable
queues, the unpause event, the movement lock, and the outgoing queues. -/
structure ModeState where
  robot_mode : Int
  command_queue : List String
  path_queue : List Waypoint
  unpause : Bool
  lockHeld : Bool
  androidMsgs : List AndroidMessage
  stmSends : List String
  warnings : List String
deriving DecidableEq

/-- RaspberryPi.change_mode from task2.py lines 1307 to 1339: a transition
to the currently-active mode is rejected with an error message; otherwise
the mode flag is set, both queues are drained, the unpause event is set for
manual and cleared for path, the movement lock release is attempted with
its exception caught and logged, the operator is notified and the buzzer
diagnostic ZZ01 is sent. -/
def change_mode (new_mode : String) (s : ModeState) : ModeState :=
  if new_mode = "manual" ∧ s.robot_mode = 0 then
    { s with androidMsgs := s.androidMsgs ++
        [⟨"error", .str "Robot already in Manual mode."⟩] }
  else if new_mode = "path" ∧ s.robot_mode = 1 then
    { s with androidMsgs := s.androidMsgs ++
        [⟨"error", .str "Robot already in Path mode."⟩] }
  else
    match movement_lock_release s.lockHeld with
    | (lockAfter, exn) =>
        { robot_mode := if new_mode = "manual" then 0 else 1,
          command_queue := [],
          path_queue := [],
          unpause := new_mode == "manual",
          lockHeld := lockAfter,
          androidMsgs := s.androidMsgs ++
            [⟨"info", .str ("Robot is now in " ++ new_mode.capitalize ++
              " mode.")⟩],
          stmSends := s.stmSends ++ ["ZZ01"],
          warnings := s.warnings ++
            (match exn with | some _ => [lockWarning] | none => []) }

/-- Release performed by the NOOP branch (task2.py line 369) and the FIN
branch (line 376) of command_follower: unlike the releases in recv_stm and
change_mode, these two are not wrapped in any try/except, so the exception
raised by releasing an already-released lock escapes command_follower and
kills the sequencer task. The returned exception component is therefore an
escaping exception, not a caught one. -/
def command_follower_unguarded_release (lockHeld : Bool) : Bool × Option PyExn :=
  movement_lock_release lockHeld

/-- C7 counterexample: the double release is not recoverable at every
release site. Interleaving: the follower dequeues NOOP and acquires the
movement lock; the rpi_action process then runs change_mode, whose release
succeeds on the held lock (no warning is logged, so the lock really was
held) because a manager lock is releasable from any process; the follower
then executes the NOOP branch, which does release, and its unguarded
release on the now-released lock yields an escaping exception with no
handler in command_follower, crashing the sequencer task instead of
logging and continuing. -/
theorem claim_C7_counterexample :
    (change_mode "path" ⟨0, [], [], true, true, [], [], []⟩).lockHeld = false ∧
    (change_mode "path" ⟨0, [], [], true, true, [], [], []⟩).warnings = [] ∧
    (command_follower_dispatch "NOOP").releasesLock = true ∧
    command_follower_unguarded_release false =
      (false, some PyExn.lockReleaseError) := by
  refine ⟨rfl, rfl, ?_, rfl⟩
  decide

/-- C7 amended: at the two guarded release sites, releasing an
already-released movement lock is a recoverable no-op. In recv_stm an
acknowledgement with the lock unheld leaves the state unchanged except for
the logged lock warning, and in change_mode a genuine transition with the
lock unheld still completes (mode set, queues drained, operator notified,
buzzer sent) with the lock warning logged; neither guarded site lets the
exception escape. The NOOP and FIN release sites of the sequencer are
unguarded and are not covered. -/
theorem claim_C7_double_release_noop :
    (∀ message s, strStartsWith "ACK" message = true → s.lockHeld = false →
      recv_stm_step message s =
        { s with warnings := s.warnings ++ [lockWarning] }) ∧
    (∀ new_mode s, s.lockHeld = false →
      ¬(new_mode = "manual" ∧ s.robot_mode = 0) →
      ¬(new_mode = "path" ∧ s.robot_mode = 1) →
      (change_mode new_mode s).warnings = s.warnings ++ [lockWarning] ∧
      (change_mode new_mode s).stmSends = s.stmSends ++ ["ZZ01"] ∧
      (change_mode new_mode s).lockHeld = false ∧
      (change_mode new_mode s).robot_mode =
        (if new_mode = "manual" then 0 else 1)) := by
  constructor
  · intro message s hack hlock
    have hrel : movement_lock_release s.lockHeld =
        (false, some .lockReleaseError) := by
      simp [movement_lock_release, hlock]
    have hs : { s with lockHeld := false } = s := by
      cases s
      simp_all
    simp [recv_stm_step, recv_stm_try, hack, hrel, hs]
  · intro new_mode s hlock hmanual hpath
    have hrel : movement_lock_release s.lockHeld =
        (false, some .lockReleaseError) := by
      simp [movement_lock_release, hlock]
    simp [change_mode, hmanual, hpath, hrel]

/-- Witness for C7: the acknowledgement ACK with the lock unheld, and a
transition to path mode from manual with the lock unheld. -/
theorem claim_C7_witness :
    (recv_stm_step "ACK" ⟨0, false, [], [], []⟩ =
      { robot_mode := 0, lockHeld := false, path_queue := [],
        androidMsgs := [], warnings := [lockWarning] }) ∧
    ((change_mode "path" ⟨0, ["FW10"], [], true, false, [], [], []⟩).warnings =
        [lockWarning] ∧
      (change_mode "path" ⟨0, ["FW10"], [], true, false, [], [], []⟩).stmSends =
        ["ZZ01"] ∧
      (change_mode "path" ⟨0, ["FW10"], [], true, false, [], [], []⟩).lockHeld =
        false ∧
      (change_mode "path" ⟨0, ["FW10"], [], true, false, [], [], []⟩).robot_mode =
        (if "path" = "manual" then 0 else 1)) := by
  constructor
  · exact claim_C7_double_release_noop.1 "ACK" ⟨0, false, [], [], []⟩
      (by decide) rfl
  · exact claim_C7_double_release_noop.2 "path"
      ⟨0, ["FW10"], [], true, false, [], [], []⟩ rfl (by decide) (by decide)

/-- C10: an acknowledgement in path mode with an empty waypoint queue
releases the movement lock, emits no location message, and the queue-empty
exception raised by get_nowait is swallowed by the same except handler that
covers the double lock release, logging the lock warning; the listener
iteration completes normally. -/
theorem claim_C10_ack_empty_path_queue (message : String) (s : RecvState)
    (hack : strStartsWith "ACK" message = true)
    (hmode : s.robot_mode = 1)
    (hlock : s.lockHeld = true)
    (hqueue : s.path_queue = []) :
    recv_stm_step message s =
      { s with lockHeld := false,
               warnings := s.warnings ++ [lockWarning] } := by
  have hrel : movement_lock_release s.lockHeld = (false, none) := by
    simp [movement_lock_release, hlock]
  simp [recv_stm_step, recv_stm_try, hack, hrel, hmode, hqueue]

/-- Witness for C10 at the concrete message ACK and a path-mode state with
an empty waypoint queue. -/
theorem claim_C10_witness :
    recv_stm_step "ACK" ⟨1, true, [], [], []⟩ =
      { robot_mode := 1, lockHeld := false, path_queue := [],
        androidMsgs := [], warnings := [lockWarning] } :=
  claim_C10_ack_empty_path_queue "ACK" ⟨1, true, [], [], []⟩
    (by decide) rfl rfl rfl

end MDP
